import Mathlib

/-!
Verification development for the thunderhawk HTTP monitoring / load-testing engine.

Shallow embedding of the core of the repository:
 * `src/config.rs`   — `HttpMethod`, `LoadTestConfig` (with its `Default`), `ApiConfig`
 * `src/factory.rs`  — `create_request_builder`, `create_monitor_tasks`,
                       the bucket schedule of `monitor_single_workflow`
 * `src/tasks.rs`    — `Task::execute` and the `MonitoringData` it writes
 * `src/loadtest.rs` — `LoadTest::execute` (retry loop), `LoadTest::run_load_test`
                       (ramp loop), and the pure aggregator `analyze_results`

Modelling conventions:
 * Machine integers (`usize`, `u64`, `u128`, `u16`) are modelled as `Nat`.
   Overflow never matters for these quantities except for the sentinels
   `usize::MAX` and `u128::MAX`, which are modelled by their exact values.
 * Calls into external collaborators (header parsing in `reqwest`, the file
   system, the network, the wall clock) are parameters of the embedded
   functions: a header-validity oracle, an `fsRead` oracle, a per-worker
   outcome oracle, and a tick-budget `fuel` standing for the number of
   1-second ticks the wall-clock time budget still allows.
 * Rust `Result` is `Except String`; `f64` quantities produced by exact
   integer data (`requests_per_second`) are modelled as exact rationals.
 * The store writes performed through `update_app_state` /
   `update_load_test_app_state` are modelled by returning the list of
   (workflow, task, record) writes the call performs.
-/

namespace Thunderhawk

/-- Model of `usize::MAX` on the 64-bit target. -/
def USIZE_MAX : Nat := 2 ^ 64 - 1

/-- Model of `u128::MAX`, the start value of the running minimum in
`analyze_results` (src/loadtest.rs). -/
def U128_MAX : Nat := 2 ^ 128 - 1

/-- The `HttpMethod` enum of src/config.rs. -/
inductive HttpMethod
  | GET
  | POST
  | PUT
  | DELETE
deriving DecidableEq, Repr

/-- The `LoadTestConfig` struct of src/config.rs: every field optional. -/
structure LoadTestConfig where
  initial_load : Option Nat
  max_load : Option Nat
  spawn_rate : Option Nat
  retry_count : Option Nat
  max_duration_secs : Option Nat
deriving DecidableEq, Repr

/-- The `Default` impl for `LoadTestConfig` in src/config.rs, used by the
config loader (`validate_settings`) when a load-test step has no
`load_test_config` at all. -/
def LoadTestConfig.defaultConfig : LoadTestConfig :=
  { initial_load := some 1
    max_load := some 10
    spawn_rate := some 1
    retry_count := some 0
    max_duration_secs := some 60 }

/-- The `ApiConfig` struct of src/config.rs.  The header map is modelled as
an association list in iteration order. -/
structure ApiConfig where
  name : String
  task_order : Option Nat
  url : String
  headers : List (String × String)
  expected_field : String
  response_time_threshold : Nat
  method : HttpMethod
  body : Option String
  body_file : Option String
  load_test : Option Bool
  load_test_config : Option LoadTestConfig
deriving DecidableEq, Repr

/-- Observable result of a `reqwest::RequestBuilder` as assembled by
`create_request_builder` (src/factory.rs): GET and DELETE builders carry no
body; POST and PUT carry the resolved `body_content`. -/
structure Request where
  method : HttpMethod
  url : String
  headers : List (String × String)
  body : Option String
deriving DecidableEq, Repr

/-- The error text `format!("Invalid header: {}: {}", key, value)` of
src/factory.rs. -/
def invalidHeaderMsg (key value : String) : String :=
  "Invalid header: " ++ key ++ ": " ++ value

/-- The error text of the body-file branch of `create_request_builder`
(src/factory.rs): `format!("Error reading request body from file '{}': {}", path, e)`. -/
def bodyReadErrMsg (path e : String) : String :=
  "Error reading request body from file \x27" ++ path ++ "\x27: " ++ e

/-- Recognises a body-read error produced by `create_request_builder` (an
error whose text begins like `bodyReadErrMsg`). -/
def isBodyReadError : Except String Request → Bool
  | .error m => m.take 38 == "Error reading request body from file \x27"
  | .ok _ => false

/-- The `create_request_builder` function of src/factory.rs.

`hdrOk k v` models `HeaderName::from_str(k)` and `HeaderValue::from_str(v)`
both succeeding (the parsers of the external `reqwest` crate); `fsRead p`
models `fs::read_to_string(p)`.  The source loop returns on the first
invalid header; then the body is resolved (file-backed body first, falling
back to the inline `body` or `""`); only then is the method dispatched. -/
def create_request_builder (hdrOk : String → String → Bool)
    (fsRead : String → Except String String) (api_config : ApiConfig) :
    Except String Request :=
  match api_config.headers.find? (fun kv => ! hdrOk kv.1 kv.2) with
  | some kv => .error (invalidHeaderMsg kv.1 kv.2)
  | none =>
    let bodyStep : Except String String :=
      match api_config.body_file with
      | some body_file_path =>
        match fsRead body_file_path with
        | .ok s => .ok s
        | .error e => .error (bodyReadErrMsg body_file_path e)
      | none => .ok (api_config.body.getD "")
    match bodyStep with
    | .error e => .error e
    | .ok body_content =>
      match api_config.method with
      | .POST => .ok ⟨.POST, api_config.url, api_config.headers, some body_content⟩
      | .PUT => .ok ⟨.PUT, api_config.url, api_config.headers, some body_content⟩
      | .DELETE => .ok ⟨.DELETE, api_config.url, api_config.headers, none⟩
      | .GET => .ok ⟨.GET, api_config.url, api_config.headers, none⟩

/-- The `reqwest::StatusCode::is_success` test: 200 ≤ code ≤ 299. -/
def isSuccessStatus (code : Nat) : Bool := 200 ≤ code && code < 300

/-- The named fields of the 10-tuple returned by `analyze_results`
(src/loadtest.rs), in the order of the tuple.  The status-code histogram
(`HashMap<u16, usize>`) is modelled extensionally as its count function. -/
structure AnalyzeResult where
  success_count : Nat
  failure_count : Nat
  median_response_time_ms : Nat
  average_response_time_ms : Nat
  min_response_time_ms : Nat
  max_response_time_ms : Nat
  status_code_distribution : Nat → Nat
  percentile_95th_response_time_ms : Nat
  requests_per_second : ℚ
  average_bytes_per_response : Nat

/-- The durations (already converted by `Duration::as_millis()`) of an
outcome list.  An outcome is `(status_code, duration_ms, bytes)`. -/
def durationsOf (results : List (Nat × Nat × Nat)) : List Nat :=
  results.map (fun r => r.2.1)

/-- Durations of the outcome list, ascending (`sort_unstable` in the
source; modelled with insertion sort, which has the same sorted-ascending
permutation semantics). -/
def sortedDurations (results : List (Nat × Nat × Nat)) : List Nat :=
  List.insertionSort (· ≤ ·) (durationsOf results)

/-- The exact value of `((0.95 * (n as f64)).ceil() as usize)` of
src/loadtest.rs, i.e. the ceiling of 19·n/20.  The `f64` computation of the
source agrees with this exact ceiling for every list length a process can
materialise (the rounding error of `0.95_f64 * n` is far below the 1/20
distance to the nearest integer for all n below 2^49). -/
def ceil95 (n : Nat) : Nat := (19 * n + 19) / 20

/-- The `analyze_results` function of src/loadtest.rs.  Each accumulator of
the source's single `for` loop is written as the fold it computes; the two
index expressions into the sorted vector are total (`getD` with default 0,
as in the source's `.get(idx).unwrap_or(&0)`; the median indexing of the
source is a direct index that is always in range). -/
def analyze_results (results : List (Nat × Nat × Nat)) : AnalyzeResult :=
  let response_times_ms := durationsOf results
  let success_count := results.countP (fun r => isSuccessStatus r.1)
  let failure_count := results.countP (fun r => ! isSuccessStatus r.1)
  let total_duration := response_times_ms.sum
  let total_bytes := (results.map (fun r => r.2.2)).sum
  let min_response_time_ms := response_times_ms.foldl Nat.min U128_MAX
  let max_response_time_ms := response_times_ms.foldl Nat.max 0
  let status_code_distribution := fun code => results.countP (fun r => r.1 == code)
  let average_response_time_ms :=
    if results.length ≠ 0 then total_duration / results.length else 0
  let sorted := List.insertionSort (· ≤ ·) response_times_ms
  let percentile_95th_index :=
    if sorted.length = 0 then 0 else ceil95 sorted.length - 1
  let percentile_95th_response_time_ms := sorted.getD percentile_95th_index 0
  let median_response_time_ms :=
    if sorted.length = 0 then 0
    else if sorted.length % 2 = 0 then
      let mid_right := sorted.length / 2
      let mid_left := mid_right - 1
      (sorted.getD mid_left 0 + sorted.getD mid_right 0) / 2
    else sorted.getD (sorted.length / 2) 0
  let requests_per_second : ℚ :=
    if 0 < total_duration then (results.length : ℚ) * 1000 / (total_duration : ℚ) else 0
  let average_bytes_per_response :=
    if results.length ≠ 0 then total_bytes / results.length else 0
  { success_count := success_count
    failure_count := failure_count
    median_response_time_ms := median_response_time_ms
    average_response_time_ms := average_response_time_ms
    min_response_time_ms := min_response_time_ms
    max_response_time_ms := max_response_time_ms
    status_code_distribution := status_code_distribution
    percentile_95th_response_time_ms := percentile_95th_response_time_ms
    requests_per_second := requests_per_second
    average_bytes_per_response := average_bytes_per_response }

/-- The `LoadTestMonitoringData` struct of src/loadtest.rs, as constructed
by `run_load_test` and written to the load-test namespace of the store. -/
structure LoadTestMonitoringData where
  api_url : String
  total_requests : Nat
  success_count : Nat
  failure_count : Nat
  median_response_time_ms : Nat
  average_response_time_ms : Nat
  min_response_time_ms : Nat
  max_response_time_ms : Nat
  status_code_distribution : Nat → Nat
  percentile_95th_response_time_ms : Nat
  requests_per_second : ℚ
  average_bytes_per_response : Nat
  method : HttpMethod

/-- The `while` loop of `run_load_test` (src/loadtest.rs, lines 161-243).

`work i` is the outcome of the i-th spawned worker over the whole campaign
(request built and sent: `.ok (status, duration_ms, bytes)`; request-build
error, send error, or a panicked task joined as
`Err("Task panicked")`: `.error msg`).  `fuel` is the number of further
1-second ticks the wall-clock budget still allows; the two elapsed-time
checks of the source (the `while` guard and the post-tick break) are
modelled by the loop stopping when fuel runs out.

Returns the final `current_load`, the list of `current_load` values after
each tick, and `all_results` in spawn order. -/
def rampLoop (max_load spawn_rate : Nat)
    (work : Nat → Except String (Nat × Nat × Nat)) :
    Nat → Nat → Nat → Nat × List Nat × List (Except String (Nat × Nat × Nat))
  | 0, current_load, _ => (current_load, [], [])
  | fuel + 1, current_load, spawned =>
    if current_load < max_load then
      let new_users :=
        if max_load ≤ current_load then 0 else min spawn_rate (max_load - current_load)
      let next_load := current_load + new_users
      let step_results := (List.range new_users).map (fun i => work (spawned + i))
      let rest := rampLoop max_load spawn_rate work fuel next_load (spawned + new_users)
      (rest.1, next_load :: rest.2.1, step_results ++ rest.2.2)
    else (current_load, [], [])

/-- Observable effects of one `run_load_test` call (src/loadtest.rs,
lines 134-290): the trace of `current_load` values (initial value first,
then the value after each tick), the `LoadTestMonitoringData` written to
the store, and the returned `Result`. -/
structure CampaignRun where
  loads : List Nat
  written : LoadTestMonitoringData
  result : Except String Unit

/-- The `run_load_test` method of src/loadtest.rs.

Faithful points: `current_load` starts at `initial_load.unwrap_or_default()`
(that is 0 when unset); `max_load` defaults to `usize::MAX`; `spawn_rate`
defaults to 1; the configured `max_duration_secs` (default 1 s) bounds the
wall clock, which the embedding abstracts into the tick budget `fuel`;
worker-level errors and panics are collected as `.error` outcomes and
dropped by `filter_map` before `analyze_results`; `total_requests` counts
only the filtered (transport-successful) outcomes; the function ends with
`Ok(())` on every path. -/
def run_load_test (ltc : LoadTestConfig) (api : ApiConfig)
    (work : Nat → Except String (Nat × Nat × Nat)) (fuel : Nat) : CampaignRun :=
  let current_load := ltc.initial_load.getD 0
  let max_load := ltc.max_load.getD USIZE_MAX
  let spawn_rate := ltc.spawn_rate.getD 1
  let ramp := rampLoop max_load spawn_rate work fuel current_load 0
  let filtered := ramp.2.2.filterMap (fun r =>
    match r with
    | .ok t => some t
    | .error _ => none)
  let a := analyze_results filtered
  { loads := current_load :: ramp.2.1
    written :=
      { api_url := api.url
        total_requests := filtered.length
        success_count := a.success_count
        failure_count := a.failure_count
        median_response_time_ms := a.median_response_time_ms
        average_response_time_ms := a.average_response_time_ms
        min_response_time_ms := a.min_response_time_ms
        max_response_time_ms := a.max_response_time_ms
        status_code_distribution := a.status_code_distribution
        percentile_95th_response_time_ms := a.percentile_95th_response_time_ms
        requests_per_second := a.requests_per_second
        average_bytes_per_response := a.average_bytes_per_response
        method := api.method }
    result := .ok () }

/-- The terminal error text of the retry loop of `LoadTest::execute`
(src/loadtest.rs line 87). -/
def retryFailMsg (attempts : Nat) (e : String) : String :=
  "Load test failed after " ++ toString attempts ++ " attempts: " ++ e

/-- The `while attempt <= max_attempts` retry loop of `LoadTest::execute`
(src/loadtest.rs, lines 75-92), with `rem = max_attempts - attempt`.

`campaign i` is the result of the `run_load_test` call of attempt number i
(0-based).  Returns the number of attempts performed, the list of backoff
sleeps performed (in seconds), and the returned `Result`.  The trailing
`Err("Load test failed: Maximum retry attempts reached")` of the source is
unreachable: every loop iteration returns. -/
def executeRetry (campaign : Nat → Except String Unit) :
    Nat → Nat → Nat × List Nat × Except String Unit
  | attempt, 0 =>
    match campaign attempt with
    | .ok _ => (1, [], .ok ())
    | .error e => (1, [], .error (retryFailMsg (attempt + 1) e))
  | attempt, rem + 1 =>
    match campaign attempt with
    | .ok _ => (1, [], .ok ())
    | .error _ =>
      let rest := executeRetry campaign (attempt + 1) rem
      (rest.1 + 1, 5 :: rest.2.1, rest.2.2)

/-- The `LoadTest::execute` method of src/loadtest.rs:
`max_attempts = retry_count.unwrap_or(0)`, then the retry loop. -/
def LoadTest.execute (ltc : LoadTestConfig)
    (campaign : Nat → Except String Unit) : Nat × List Nat × Except String Unit :=
  executeRetry campaign 0 (ltc.retry_count.getD 0)

/-- The `MonitoringData` struct of src/tasks.rs (plain monitoring record). -/
structure MonitoringData where
  api_url : String
  status : String
  response_time : Nat
  status_code : Option Nat
  method : HttpMethod
deriving DecidableEq, Repr

/-- The error text of the non-2xx branch of `Task::execute` (src/tasks.rs
line 80). -/
def httpStatusErrMsg (name : String) (code : Nat) : String :=
  "\x27" ++ name ++ "\x27 responded with HTTP status " ++ toString code

/-- The error text of the transport-failure branch of `Task::execute`
(src/tasks.rs line 95). -/
def transportErrMsg (name e : String) : String :=
  "Failed to reach \x27" ++ name ++ "\x27: " ++ e

/-- The `Task::execute` method of src/tasks.rs.

`send` models `RequestBuilder::send().await`, returning the HTTP status
code or a transport error; `durationMs` models `start.elapsed()`.  The
headers assembled in lines 45-54 of the source are dead (the request is
built afresh by `create_request_builder`) and have no observable effect.
Returns the list of (workflow, task, record) writes performed through
`update_app_state` and the returned `Result`.  Note the `?` on
`create_request_builder`: a build error returns before any write. -/
def Task.execute (hdrOk : String → String → Bool)
    (fsRead : String → Except String String)
    (send : Request → Except String Nat) (durationMs : Nat)
    (api : ApiConfig) (workflow_name : String) :
    List (String × String × MonitoringData) × Except String Unit :=
  match create_request_builder hdrOk fsRead api with
  | .error e => ([], .error e)
  | .ok request_builder =>
    match send request_builder with
    | .ok status_code =>
      if isSuccessStatus status_code then
        ([(workflow_name, api.name,
           { api_url := api.url
             status := "OK"
             response_time := durationMs
             status_code := some status_code
             method := api.method })], .ok ())
      else
        ([(workflow_name, api.name,
           { api_url := api.url
             status := "ERROR"
             response_time := durationMs
             status_code := some status_code
             method := api.method })], .error (httpStatusErrMsg api.name status_code))
    | .error e =>
      ([(workflow_name, api.name,
         { api_url := api.url
           status := "ERROR"
           response_time := durationMs
           status_code := none
           method := api.method })], .error (transportErrMsg api.name e))

/-- Tag distinguishing the two `ApiMonitor` implementations dispatched by
`create_monitor_tasks` (src/factory.rs). -/
inductive MonitorKind
  | task
  | loadtest
deriving DecidableEq, Repr

/-- The `get_task_order` method, identical for `Task` (src/tasks.rs) and
`LoadTest` (src/loadtest.rs): `task_order.unwrap_or(usize::MAX)`. -/
def get_task_order (api : ApiConfig) : Nat := api.task_order.getD USIZE_MAX

/-- The `create_monitor_tasks` function of src/factory.rs: a step with
`load_test = true` becomes a `LoadTest` monitor when it has a
`load_test_config` (and is silently skipped otherwise); every other step
becomes a plain `Task` monitor. -/
def create_monitor_tasks (apis : List ApiConfig) : List (MonitorKind × ApiConfig) :=
  apis.filterMap (fun a =>
    if a.load_test.getD false then
      match a.load_test_config with
      | some _ => some (MonitorKind.loadtest, a)
      | none => none
    else some (MonitorKind.task, a))

/-- The distinct bucket keys of `monitor_single_workflow` (src/factory.rs):
the keys of `grouped_tasks`, collected and sorted ascending. -/
def orderKeys (tasks : List (MonitorKind × ApiConfig)) : List Nat :=
  List.insertionSort (· ≤ ·) ((tasks.map (fun t => get_task_order t.2)).dedup)

/-- The bucket schedule of `monitor_single_workflow` (src/factory.rs,
lines 86-115): for each order key in ascending order, the bucket of
monitors with that key (in workflow declaration order, as `HashMap`
`entry(..).push` preserves insertion order within a bucket).  The source
dispatches every monitor of a bucket concurrently (`join_all`) and waits
for the whole bucket before moving on; the schedule is that sequential
list of concurrent batches. -/
def workflowSchedule (apis : List ApiConfig) :
    List (Nat × List (MonitorKind × ApiConfig)) :=
  (orderKeys (create_monitor_tasks apis)).map
    (fun k => (k, (create_monitor_tasks apis).filter (fun t => get_task_order t.2 == k)))

/-- Execution of the schedule (the `for order_key in order_keys` loop of
src/factory.rs): every monitor of every bucket is executed and its
success/failure (`res`) is only logged — an `Err` from `execute` is caught
in the per-future `match` and never cancels siblings or later buckets. -/
def executionLog (apis : List ApiConfig) (res : MonitorKind × ApiConfig → Bool) :
    List (Nat × List ((MonitorKind × ApiConfig) × Bool)) :=
  (workflowSchedule apis).map (fun p => (p.1, p.2.map (fun t => (t, res t))))

/-! Fixtures used by concrete witnesses and counterexamples. -/

set_option maxRecDepth 10000

/-- A minimal step configuration (GET, no headers, no body, no load test). -/
def sampleApi : ApiConfig :=
  { name := "step"
    task_order := none
    url := "http://example"
    headers := []
    expected_field := ""
    response_time_threshold := 0
    method := HttpMethod.GET
    body := none
    body_file := none
    load_test := none
    load_test_config := none }

/-- A step with one unparsable header and a file-backed body. -/
def badHeaderApi : ApiConfig :=
  { sampleApi with headers := [("bad", "v")], body_file := some "f" }

/-- A step with a file-backed body and method GET. -/
def fileGetApi : ApiConfig :=
  { sampleApi with body_file := some "f" }

/-- The load-test configuration of the ramp fixture of the spec:
initial 1, max 3, spawn 1, no retries, 5-second budget. -/
def rampLtc : LoadTestConfig :=
  { initial_load := some 1
    max_load := some 3
    spawn_rate := some 1
    retry_count := some 0
    max_duration_secs := some 5 }

/-- A load-test configuration whose `initial_load` is unset. -/
def unsetInitialLtc : LoadTestConfig :=
  { rampLtc with initial_load := none }

/-- A load-test configuration with `retry_count = 2` and everything else
unset. -/
def retryTwiceLtc : LoadTestConfig :=
  { initial_load := none
    max_load := none
    spawn_rate := none
    retry_count := some 2
    max_duration_secs := none }

/-! Helper lemmas about the folds of `analyze_results`. -/

theorem foldl_min_le_init (l : List Nat) (init : Nat) : l.foldl Nat.min init ≤ init := by
  induction l generalizing init with
  | nil => exact Nat.le_refl _
  | cons a t ih => exact Nat.le_trans (ih (Nat.min init a)) (Nat.min_le_left _ _)

theorem foldl_min_le_mem {x : Nat} {l : List Nat} (hx : x ∈ l) (init : Nat) :
    l.foldl Nat.min init ≤ x := by
  induction l generalizing init with
  | nil => cases hx
  | cons a t ih =>
    rcases List.mem_cons.mp hx with h | h
    · subst h
      exact Nat.le_trans (foldl_min_le_init t _) (Nat.min_le_right _ _)
    · exact ih h _

theorem le_foldl_max_init (l : List Nat) (init : Nat) : init ≤ l.foldl Nat.max init := by
  induction l generalizing init with
  | nil => exact Nat.le_refl _
  | cons a t ih => exact Nat.le_trans (Nat.le_max_left _ _) (ih (Nat.max init a))

theorem mem_le_foldl_max {x : Nat} {l : List Nat} (hx : x ∈ l) (init : Nat) :
    x ≤ l.foldl Nat.max init := by
  induction l generalizing init with
  | nil => cases hx
  | cons a t ih =>
    rcases List.mem_cons.mp hx with h | h
    · subst h
      exact Nat.le_trans (Nat.le_max_right _ _) (le_foldl_max_init t _)
    · exact ih h _

theorem ceil_natCast_div (a b : Nat) (hb : 0 < b) :
    ⌈(a : ℚ) / (b : ℚ)⌉₊ = (a + b - 1) / b := by
  have hbq : (0 : ℚ) < (b : ℚ) := by exact_mod_cast hb
  apply le_antisymm
  · rw [Nat.ceil_le, div_le_iff₀ hbq]
    have h1 : a ≤ (a + b - 1) / b * b := by
      rw [Nat.mul_comm]
      have h2 := Nat.div_add_mod (a + b - 1) b
      have h3 : (a + b - 1) % b < b := Nat.mod_lt _ hb
      omega
    exact_mod_cast h1
  · have h4 : (a : ℚ) ≤ (⌈(a : ℚ) / (b : ℚ)⌉₊ : ℚ) * b := by
      rw [← div_le_iff₀ hbq]
      exact Nat.le_ceil _
    have h5 : a ≤ ⌈(a : ℚ) / (b : ℚ)⌉₊ * b := by exact_mod_cast h4
    rw [Nat.div_le_iff_le_mul_add_pred hb]
    calc a + b - 1 = a + (b - 1) := by omega
      _ ≤ ⌈(a : ℚ) / (b : ℚ)⌉₊ * b + (b - 1) := Nat.add_le_add_right h5 _
      _ = b * ⌈(a : ℚ) / (b : ℚ)⌉₊ + (b - 1) := by rw [Nat.mul_comm]

/-! Claim C1. -/

/-- C1 (corrected), counterexample: with `initial_load` unset (and all other
load-test parameters set), the `currentLoad` counter of `run_load_test`
starts at 0 before the first tick — the head of the load trace is 0, not
the claimed 1. -/
theorem C1_initial_load_cex :
    (run_load_test unsetInitialLtc sampleApi (fun _ => .error "x") 5).loads.head? = some 0
    ∧ some (0 : Nat) ≠ some 1 := by
  exact ⟨rfl, by decide⟩

/-- C1 (amended): when `LoadTestConfig.initial_load` is unset,
`run_load_test` starts its `currentLoad` counter at 0
(`initial_load.unwrap_or_default()`); the documented default of 1 is
applied only by the config loader's `LoadTestConfig::default()`, which
fills a completely missing `load_test_config`. -/
theorem C1_initial_load (ltc : LoadTestConfig) (api : ApiConfig)
    (work : Nat → Except String (Nat × Nat × Nat)) (fuel : Nat)
    (h : ltc.initial_load = none) :
    (run_load_test ltc api work fuel).loads.head? = some 0
    ∧ LoadTestConfig.defaultConfig.initial_load = some 1 := by
  refine ⟨?_, rfl⟩
  simp [run_load_test, h]

/-- C1 witness: the amended theorem applied at the unset-initial-load
configuration of the counterexample. -/
theorem C1_initial_load_witness :
    (run_load_test unsetInitialLtc sampleApi (fun _ => .error "x") 5).loads.head? = some 0 :=
  (C1_initial_load unsetInitialLtc sampleApi (fun _ => .error "x") 5 rfl).1

/-! Claim C4. -/

/-- C4 (confirmed): `run_load_test` returns `Ok` on every execution path —
whatever the per-worker outcomes (request-build errors, transport errors,
panicked workers) and whatever the tick budget, the campaign result is
`Ok(())`, the aggregated record counts only the outcomes that survive the
`filter_map` (worker failures are dropped before aggregation), and
therefore `LoadTest::execute` performs exactly one attempt, sleeps never,
and returns `Ok` for every configured `retry_count`. -/
theorem C4_run_load_test_always_ok (ltc : LoadTestConfig) (api : ApiConfig)
    (work : Nat → Except String (Nat × Nat × Nat)) (fuel : Nat)
    (attemptWork : Nat → Nat → Except String (Nat × Nat × Nat)) (attemptFuel : Nat → Nat) :
    (run_load_test ltc api work fuel).result = .ok ()
    ∧ (run_load_test ltc api work fuel).written.total_requests
        = ((rampLoop (ltc.max_load.getD USIZE_MAX) (ltc.spawn_rate.getD 1) work fuel
            (ltc.initial_load.getD 0) 0).2.2.filterMap (fun r =>
              match r with
              | .ok t => some t
              | .error _ => none)).length
    ∧ LoadTest.execute ltc
        (fun i => (run_load_test ltc api (attemptWork i) (attemptFuel i)).result)
        = (1, [], .ok ()) := by
  refine ⟨rfl, rfl, ?_⟩
  show executeRetry _ 0 (ltc.retry_count.getD 0) = (1, [], .ok ())
  cases ltc.retry_count.getD 0 with
  | zero => rfl
  | succ rem => rfl

/-! Claim C5: the retry loop of `LoadTest::execute`. -/

theorem executeRetry_spec (campaign : Nat → Except String Unit) :
    ∀ rem attempt,
      1 ≤ (executeRetry campaign attempt rem).1
      ∧ (executeRetry campaign attempt rem).1 ≤ rem + 1
      ∧ (executeRetry campaign attempt rem).2.1
          = List.replicate ((executeRetry campaign attempt rem).1 - 1) 5
      ∧ (∀ i, attempt ≤ i → i + 1 < attempt + (executeRetry campaign attempt rem).1 →
          ∃ e, campaign i = .error e)
      ∧ ((∀ i, attempt ≤ i → i ≤ attempt + rem → ∃ e, campaign i = .error e) →
          (executeRetry campaign attempt rem).1 = rem + 1
          ∧ ∃ e, (executeRetry campaign attempt rem).2.2 = .error e) := by
  intro rem
  induction rem with
  | zero =>
    intro attempt
    cases hc : campaign attempt with
    | ok u =>
      simp only [executeRetry, hc]
      refine ⟨Nat.le_refl _, Nat.le_refl _, rfl, ?_, ?_⟩
      · intro i hi hi2
        omega
      · intro hall
        obtain ⟨e, he⟩ := hall attempt (Nat.le_refl _) (Nat.le_add_right _ _)
        rw [hc] at he
        cases he
    | error e =>
      simp only [executeRetry, hc]
      refine ⟨Nat.le_refl _, Nat.le_refl _, rfl, ?_, ?_⟩
      · intro i hi hi2
        omega
      · intro _
        exact ⟨by trivial, ⟨_, rfl⟩⟩
  | succ rem ih =>
    intro attempt
    cases hc : campaign attempt with
    | ok u =>
      simp only [executeRetry, hc]
      refine ⟨Nat.le_refl _, by omega, rfl, ?_, ?_⟩
      · intro i hi hi2
        omega
      · intro hall
        obtain ⟨e, he⟩ := hall attempt (Nat.le_refl _) (Nat.le_add_right _ _)
        rw [hc] at he
        cases he
    | error e =>
      obtain ⟨ih1, ih2, ih3, ih4, ih5⟩ := ih (attempt + 1)
      simp only [executeRetry, hc]
      refine ⟨by omega, by omega, ?_, ?_, ?_⟩
      · rw [ih3]
        have hn1 : (executeRetry campaign (attempt + 1) rem).1 + 1 - 1
            = ((executeRetry campaign (attempt + 1) rem).1 - 1) + 1 := by omega
        rw [hn1, List.replicate_succ]
      · intro i hi hi2
        rcases Nat.eq_or_lt_of_le hi with h | h
        · subst h
          exact ⟨e, hc⟩
        · exact ih4 i h (by omega)
      · intro hall
        have hsub : ∀ i, attempt + 1 ≤ i → i ≤ attempt + 1 + rem → ∃ e, campaign i = .error e := by
          intro i h1 h2
          exact hall i (by omega) (by omega)
        obtain ⟨hn, he⟩ := ih5 hsub
        exact ⟨by omega, he⟩

/-- C5 (confirmed): `LoadTest::execute` wraps the campaign in a retry loop
performing at most `retry_count` additional attempts after the first, with
a fixed 5-second sleep recorded before every retry, retrying only after a
campaign-level failure (every non-final attempt failed); when every
attempt up to `retry_count` fails, exactly `retry_count + 1` attempts are
made and a terminal `Err` is returned only then.  (A campaign that merely
saw HTTP-level errors in its traffic returns `Ok` — see
`C4_run_load_test_always_ok` — so it never triggers a retry.) -/
theorem C5_retry_policy (ltc : LoadTestConfig) (campaign : Nat → Except String Unit) :
    (LoadTest.execute ltc campaign).1 ≤ ltc.retry_count.getD 0 + 1
    ∧ (LoadTest.execute ltc campaign).2.1
        = List.replicate ((LoadTest.execute ltc campaign).1 - 1) 5
    ∧ (∀ i, i + 1 < (LoadTest.execute ltc campaign).1 → ∃ e, campaign i = .error e)
    ∧ ((∀ i, i ≤ ltc.retry_count.getD 0 → ∃ e, campaign i = .error e) →
        (LoadTest.execute ltc campaign).1 = ltc.retry_count.getD 0 + 1
        ∧ ∃ e, (LoadTest.execute ltc campaign).2.2 = .error e) := by
  obtain ⟨h1, h2, h3, h4, h5⟩ := executeRetry_spec campaign (ltc.retry_count.getD 0) 0
  simp only [LoadTest.execute]
  refine ⟨h2, h3, ?_, ?_⟩
  · intro i hi
    exact h4 i (Nat.zero_le _) (by omega)
  · intro hall
    exact h5 (fun i _ h => hall i (by omega))

/-- C5 witness: with `retry_count = 2` and an always-failing campaign, the
scheduler attempts exactly 3 times, sleeps 5 seconds twice between
attempts, and reports the terminal failure only after the third attempt. -/
theorem C5_retry_policy_witness :
    (LoadTest.execute retryTwiceLtc (fun _ => .error "boom")).1 = 3
    ∧ (LoadTest.execute retryTwiceLtc (fun _ => .error "boom")).2.1 = [5, 5]
    ∧ (LoadTest.execute retryTwiceLtc (fun _ => .error "boom")).2.2
        = .error (retryFailMsg 3 "boom") := by
  have h := (C5_retry_policy retryTwiceLtc (fun _ => .error "boom")).2.2.2
    (fun i _ => ⟨"boom", rfl⟩)
  exact ⟨h.1, rfl, rfl⟩

/-! Claim C7: the ramp loop invariant. -/

theorem rampLoop_chain (max_load spawn_rate : Nat)
    (work : Nat → Except String (Nat × Nat × Nat)) :
    ∀ fuel current_load spawned,
      List.Chain' (fun a b => a < max_load ∧ b = a + min spawn_rate (max_load - a))
        (current_load :: (rampLoop max_load spawn_rate work fuel current_load spawned).2.1) := by
  intro fuel
  induction fuel with
  | zero =>
    intro current_load spawned
    simp [rampLoop]
  | succ fuel ih =>
    intro current_load spawned
    by_cases hlt : current_load < max_load
    · simp only [rampLoop, if_pos hlt, if_neg (Nat.not_le.mpr hlt)]
      exact List.Chain'.cons ⟨hlt, rfl⟩ (ih _ _)
    · simp [rampLoop, if_neg hlt]

theorem rampLoop_le (max_load spawn_rate : Nat)
    (work : Nat → Except String (Nat × Nat × Nat)) :
    ∀ fuel current_load spawned, current_load ≤ max_load →
      ∀ l ∈ (rampLoop max_load spawn_rate work fuel current_load spawned).2.1, l ≤ max_load := by
  intro fuel
  induction fuel with
  | zero =>
    intro current_load spawned _ l hl
    simp [rampLoop] at hl
  | succ fuel ih =>
    intro current_load spawned hle l hl
    by_cases hlt : current_load < max_load
    · simp only [rampLoop, if_pos hlt, if_neg (Nat.not_le.mpr hlt)] at hl
      have hnext : current_load + min spawn_rate (max_load - current_load) ≤ max_load := by
        have := Nat.min_le_right spawn_rate (max_load - current_load)
        omega
      rcases List.mem_cons.mp hl with h | h
      · omega
      · exact ih _ _ hnext l h
    · simp [rampLoop, if_neg hlt] at hl

/-- C7 (confirmed): along the `currentLoad` trace of `run_load_test`, every
tick adds exactly `min(spawn_rate, max_load - currentLoad)` (and ticks only
happen while `currentLoad < max_load`); consequently, whenever the starting
load is at most `max_load`, the load never exceeds `max_load` at any point
of the campaign. -/
theorem C7_ramp_invariant (ltc : LoadTestConfig) (api : ApiConfig)
    (work : Nat → Except String (Nat × Nat × Nat)) (fuel : Nat) :
    List.Chain' (fun a b => a < ltc.max_load.getD USIZE_MAX
        ∧ b = a + min (ltc.spawn_rate.getD 1) (ltc.max_load.getD USIZE_MAX - a))
      (run_load_test ltc api work fuel).loads
    ∧ (ltc.initial_load.getD 0 ≤ ltc.max_load.getD USIZE_MAX →
        ∀ l ∈ (run_load_test ltc api work fuel).loads, l ≤ ltc.max_load.getD USIZE_MAX) := by
  constructor
  · exact rampLoop_chain _ _ work fuel _ 0
  · intro hinit l hl
    rcases List.mem_cons.mp hl with h | h
    · omega
    · exact rampLoop_le _ _ work fuel _ 0 hinit l h

/-- C7 witness: with `initial_load = 1, max_load = 3, spawn_rate = 1` and a
5-tick budget the ramp is exactly 1 → 2 → 3 and stops; the bound
`currentLoad ≤ 3` obtained from the invariant holds at the final load. -/
theorem C7_ramp_invariant_witness :
    (run_load_test rampLtc sampleApi (fun _ => .error "x") 5).loads = [1, 2, 3]
    ∧ (3 : Nat) ≤ 3 := by
  have h := (C7_ramp_invariant rampLtc sampleApi (fun _ => .error "x") 5).2 (by decide)
  exact ⟨by decide, h 3 (by decide)⟩

/-! Projection equations of `analyze_results` (definitional). -/

theorem analyze_min_eq (results : List (Nat × Nat × Nat)) :
    (analyze_results results).min_response_time_ms
      = (durationsOf results).foldl Nat.min U128_MAX := rfl

theorem analyze_max_eq (results : List (Nat × Nat × Nat)) :
    (analyze_results results).max_response_time_ms
      = (durationsOf results).foldl Nat.max 0 := rfl

theorem analyze_avg_eq (results : List (Nat × Nat × Nat)) :
    (analyze_results results).average_response_time_ms
      = (if results.length ≠ 0 then (durationsOf results).sum / results.length else 0) := rfl

theorem analyze_median_eq (results : List (Nat × Nat × Nat)) :
    (analyze_results results).median_response_time_ms
      = (if (sortedDurations results).length = 0 then 0
         else if (sortedDurations results).length % 2 = 0 then
           ((sortedDurations results).getD ((sortedDurations results).length / 2 - 1) 0
             + (sortedDurations results).getD ((sortedDurations results).length / 2) 0) / 2
         else (sortedDurations results).getD ((sortedDurations results).length / 2) 0) := rfl

theorem analyze_percentile_eq (results : List (Nat × Nat × Nat)) :
    (analyze_results results).percentile_95th_response_time_ms
      = (sortedDurations results).getD
          (if (sortedDurations results).length = 0 then 0
           else ceil95 (sortedDurations results).length - 1) 0 := rfl

theorem sortedDurations_length (results : List (Nat × Nat × Nat)) :
    (sortedDurations results).length = results.length := by
  simp [sortedDurations, durationsOf, List.length_insertionSort]

theorem sortedDurations_mem {x : Nat} {results : List (Nat × Nat × Nat)}
    (hx : x ∈ sortedDurations results) : x ∈ durationsOf results :=
  (List.mem_insertionSort _).mp hx

/-! Claim C3. -/

/-- C3 (corrected), counterexample: on the empty outcome list the running
minimum of `analyze_results` is never lowered from its start value, so the
returned `min_response_time_ms` is `u128::MAX`, not 0. -/
theorem C3_aggregate_cex :
    (analyze_results []).min_response_time_ms = U128_MAX ∧ U128_MAX ≠ 0 :=
  ⟨rfl, by decide⟩

/-- C3 (amended): for every non-empty outcome list,
min ≤ median ≤ max and min ≤ average ≤ max; for the empty list every
returned metric is 0 — counts, max, median, average, 95th percentile,
throughput, average bytes, and the whole status-code histogram — except
`min_response_time_ms`, which is `u128::MAX` (the unlowered start of the
running minimum). -/
theorem C3_aggregate_bounds (results : List (Nat × Nat × Nat)) :
    (results ≠ [] →
      (analyze_results results).min_response_time_ms
          ≤ (analyze_results results).median_response_time_ms
      ∧ (analyze_results results).median_response_time_ms
          ≤ (analyze_results results).max_response_time_ms
      ∧ (analyze_results results).min_response_time_ms
          ≤ (analyze_results results).average_response_time_ms
      ∧ (analyze_results results).average_response_time_ms
          ≤ (analyze_results results).max_response_time_ms)
    ∧ (analyze_results []).success_count = 0
    ∧ (analyze_results []).failure_count = 0
    ∧ (analyze_results []).median_response_time_ms = 0
    ∧ (analyze_results []).average_response_time_ms = 0
    ∧ (analyze_results []).max_response_time_ms = 0
    ∧ (analyze_results []).percentile_95th_response_time_ms = 0
    ∧ (analyze_results []).requests_per_second = 0
    ∧ (analyze_results []).average_bytes_per_response = 0
    ∧ (∀ code, (analyze_results []).status_code_distribution code = 0)
    ∧ (analyze_results []).min_response_time_ms = U128_MAX := by
  refine ⟨?_, rfl, rfl, rfl, rfl, rfl, rfl, rfl, rfl, fun _ => rfl, rfl⟩
  intro h
  have hlen0 : results.length ≠ 0 := by
    simpa [List.length_eq_zero] using h
  have hpos : 0 < results.length := Nat.pos_of_ne_zero hlen0
  have hslen : (sortedDurations results).length = results.length :=
    sortedDurations_length results
  have hdlen : (durationsOf results).length = results.length := by
    simp [durationsOf]
  have hmem_bounds : ∀ x ∈ sortedDurations results,
      (durationsOf results).foldl Nat.min U128_MAX ≤ x
      ∧ x ≤ (durationsOf results).foldl Nat.max 0 := by
    intro x hx
    exact ⟨foldl_min_le_mem (sortedDurations_mem hx) _,
      mem_le_foldl_max (sortedDurations_mem hx) _⟩
  have hmed : (analyze_results results).min_response_time_ms
      ≤ (analyze_results results).median_response_time_ms
      ∧ (analyze_results results).median_response_time_ms
      ≤ (analyze_results results).max_response_time_ms := by
    rw [analyze_min_eq, analyze_max_eq, analyze_median_eq]
    rw [if_neg (by omega : ¬ (sortedDurations results).length = 0)]
    by_cases hpar : (sortedDurations results).length % 2 = 0
    · rw [if_pos hpar]
      have hir : (sortedDurations results).length / 2 < (sortedDurations results).length :=
        Nat.div_lt_self (by omega) (by omega)
      have hil : (sortedDurations results).length / 2 - 1 < (sortedDurations results).length := by
        omega
      rw [List.getD_eq_getElem _ _ hil, List.getD_eq_getElem _ _ hir]
      obtain ⟨hminl, hmaxl⟩ := hmem_bounds _ (List.getElem_mem hil)
      obtain ⟨hminr, hmaxr⟩ := hmem_bounds _ (List.getElem_mem hir)
      constructor
      · rw [Nat.le_div_iff_mul_le (by omega : 0 < 2)]
        omega
      · exact Nat.div_le_of_le_mul (by omega)
    · rw [if_neg hpar]
      have hir : (sortedDurations results).length / 2 < (sortedDurations results).length :=
        Nat.div_lt_self (by omega) (by omega)
      rw [List.getD_eq_getElem _ _ hir]
      exact hmem_bounds _ (List.getElem_mem hir)
  have havg : (analyze_results results).min_response_time_ms
      ≤ (analyze_results results).average_response_time_ms
      ∧ (analyze_results results).average_response_time_ms
      ≤ (analyze_results results).max_response_time_ms := by
    rw [analyze_min_eq, analyze_max_eq, analyze_avg_eq, if_pos hlen0]
    have hlow : (durationsOf results).length • ((durationsOf results).foldl Nat.min U128_MAX)
        ≤ (durationsOf results).sum :=
      List.card_nsmul_le_sum _ _ (fun x hx => foldl_min_le_mem hx _)
    have hhigh : (durationsOf results).sum
        ≤ (durationsOf results).length • ((durationsOf results).foldl Nat.max 0) :=
      List.sum_le_card_nsmul _ _ (fun x hx => mem_le_foldl_max hx _)
    rw [smul_eq_mul] at hlow
    rw [smul_eq_mul] at hhigh
    constructor
    · rw [Nat.le_div_iff_mul_le hpos]
      calc (durationsOf results).foldl Nat.min U128_MAX * results.length
          = (durationsOf results).length * ((durationsOf results).foldl Nat.min U128_MAX) := by
            rw [hdlen, Nat.mul_comm]
        _ ≤ (durationsOf results).sum := hlow
    · refine Nat.div_le_of_le_mul ?_
      calc (durationsOf results).sum
          ≤ (durationsOf results).length * ((durationsOf results).foldl Nat.max 0) := hhigh
        _ = results.length * ((durationsOf results).foldl Nat.max 0) := by rw [hdlen]
  exact ⟨hmed.1, hmed.2, havg.1, havg.2⟩

/-- C3 witness: the bounds instantiated at a concrete two-outcome list
(durations 5 ms and 1 ms: min 1, median 3, average 3, max 5). -/
theorem C3_aggregate_bounds_witness :
    (analyze_results [(200, 5, 10), (500, 1, 2)]).min_response_time_ms
        ≤ (analyze_results [(200, 5, 10), (500, 1, 2)]).median_response_time_ms
    ∧ (analyze_results [(200, 5, 10), (500, 1, 2)]).median_response_time_ms
        ≤ (analyze_results [(200, 5, 10), (500, 1, 2)]).max_response_time_ms
    ∧ (analyze_results [(200, 5, 10), (500, 1, 2)]).min_response_time_ms
        ≤ (analyze_results [(200, 5, 10), (500, 1, 2)]).average_response_time_ms
    ∧ (analyze_results [(200, 5, 10), (500, 1, 2)]).average_response_time_ms
        ≤ (analyze_results [(200, 5, 10), (500, 1, 2)]).max_response_time_ms :=
  (C3_aggregate_bounds [(200, 5, 10), (500, 1, 2)]).1 (by decide)

/-! Claim C8. -/

/-- C8 (confirmed): for a non-empty outcome list of size n the 95th
percentile returned by `analyze_results` is the element of the
ascending-sorted duration list at 0-based index `ceil(0.95*n) - 1` clamped
to `[0, n-1]` (the exact Nat ceiling `ceil95 n = ⌈0.95·n⌉`, and the clamp
is vacuous since `ceil95 n ≤ n`); the percentile is 0 for the empty list. -/
theorem C8_percentile_formula (results : List (Nat × Nat × Nat)) (h : results ≠ []) :
    (analyze_results results).percentile_95th_response_time_ms
      = (sortedDurations results).getD
          (min (ceil95 results.length - 1) (results.length - 1)) 0
    ∧ ceil95 results.length = ⌈(0.95 : ℚ) * (results.length : ℚ)⌉₊
    ∧ ceil95 results.length - 1 ≤ results.length - 1
    ∧ (analyze_results []).percentile_95th_response_time_ms = 0 := by
  have hlen0 : results.length ≠ 0 := by
    simpa [List.length_eq_zero] using h
  have hslen : (sortedDurations results).length = results.length :=
    sortedDurations_length results
  have hceil_le : ceil95 results.length ≤ results.length := by
    rw [ceil95, Nat.div_le_iff_le_mul_add_pred (by omega : 0 < 20)]
    omega
  have hceil_pos : 1 ≤ ceil95 results.length := by
    rw [ceil95, Nat.le_div_iff_mul_le (by omega : 0 < 20)]
    omega
  refine ⟨?_, ?_, by omega, rfl⟩
  · rw [analyze_percentile_eq, hslen, if_neg hlen0, Nat.min_eq_left (by omega)]
  · have hq : (0.95 : ℚ) * (results.length : ℚ)
        = ((19 * results.length : ℕ) : ℚ) / ((20 : ℕ) : ℚ) := by
      push_cast
      ring
    rw [hq, ceil_natCast_div _ _ (by omega)]
    rw [ceil95]
    congr 1

/-- C8 witness: at n = 20 (durations 1..20 ms) the index is
ceil(0.95·20) − 1 = 18 and the percentile is the 19th smallest value. -/
theorem C8_percentile_formula_witness :
    (analyze_results ((List.range 20).map (fun i => (200, i + 1, 0)))).percentile_95th_response_time_ms = 19
    ∧ ceil95 20 - 1 = 18 := by
  have h := C8_percentile_formula ((List.range 20).map (fun i => (200, i + 1, 0))) (by decide)
  constructor
  · rw [h.1]
    decide
  · decide

/-! Claim C9. -/

/-- C9 (confirmed): for a non-empty outcome list the median returned by
`analyze_results` is, for even n, the (integer) average of the two central
elements of the ascending-sorted duration list, and for odd n the single
central element; it is 0 for the empty list.  The central indices are in
range, so the `getD` reads are genuine list elements. -/
theorem C9_median_formula (results : List (Nat × Nat × Nat)) (h : results ≠ []) :
    (results.length % 2 = 0 →
      (analyze_results results).median_response_time_ms
        = ((sortedDurations results).getD (results.length / 2 - 1) 0
            + (sortedDurations results).getD (results.length / 2) 0) / 2
      ∧ results.length / 2 - 1 < (sortedDurations results).length
      ∧ results.length / 2 < (sortedDurations results).length)
    ∧ (results.length % 2 = 1 →
      (analyze_results results).median_response_time_ms
        = (sortedDurations results).getD (results.length / 2) 0
      ∧ results.length / 2 < (sortedDurations results).length)
    ∧ (analyze_results []).median_response_time_ms = 0 := by
  have hlen0 : results.length ≠ 0 := by
    simpa [List.length_eq_zero] using h
  have hslen : (sortedDurations results).length = results.length :=
    sortedDurations_length results
  have hir : results.length / 2 < results.length := Nat.div_lt_self (by omega) (by omega)
  refine ⟨?_, ?_, rfl⟩
  · intro hpar
    rw [analyze_median_eq, hslen, if_neg hlen0, if_pos hpar]
    exact ⟨rfl, by omega, by omega⟩
  · intro hpar
    rw [analyze_median_eq, hslen, if_neg hlen0, if_neg (by omega)]
    exact ⟨rfl, by omega⟩

/-- C9 witness: the even rule at n = 4 (sorted 1,2,3,10; median (2+3)/2 = 2)
and the odd rule at n = 5 (sorted 1,2,3,4,10; median 3). -/
theorem C9_median_formula_witness :
    (analyze_results [(200, 1, 0), (200, 3, 0), (200, 2, 0), (200, 10, 0)]).median_response_time_ms = 2
    ∧ (analyze_results [(200, 1, 0), (200, 3, 0), (200, 2, 0), (200, 10, 0), (200, 4, 0)]).median_response_time_ms = 3 := by
  have h4 := ((C9_median_formula [(200, 1, 0), (200, 3, 0), (200, 2, 0), (200, 10, 0)]
    (by decide)).1 (by decide)).1
  have h5 := ((C9_median_formula [(200, 1, 0), (200, 3, 0), (200, 2, 0), (200, 10, 0), (200, 4, 0)]
    (by decide)).2.1 (by decide)).1
  constructor
  · rw [h4]
    decide
  · rw [h5]
    decide

/-! Claim C2. -/

/-- C2 (corrected), counterexample: when request construction fails (here:
an unparsable header), `Task::execute` returns the error through `?` before
any store write — zero `MonitoringData` records are written, not exactly
one, while an `Err` disposition is reported. -/
theorem C2_single_write_cex :
    (Task.execute (fun k _ => k != "bad") (fun s => .ok s) (fun _ => .ok 200) 7
        badHeaderApi "wf").1 = []
    ∧ (Task.execute (fun k _ => k != "bad") (fun s => .ok s) (fun _ => .ok 200) 7
        badHeaderApi "wf").2 = .error (invalidHeaderMsg "bad" "v") :=
  ⟨rfl, rfl⟩

/-- C2 (amended): on every invocation of `Task::execute` where request
construction succeeds, exactly one `MonitoringData` record is written to
the store before the call returns and its status ("OK" vs "ERROR") matches
the reported disposition (`Ok` vs `Err`); when request construction fails,
the error is propagated and no record is written. -/
theorem C2_single_write (hdrOk : String → String → Bool)
    (fsRead : String → Except String String) (send : Request → Except String Nat)
    (durationMs : Nat) (api : ApiConfig) (workflow_name : String) :
    (∀ req, create_request_builder hdrOk fsRead api = .ok req →
      ∃ d : MonitoringData,
        (Task.execute hdrOk fsRead send durationMs api workflow_name).1
          = [(workflow_name, api.name, d)]
        ∧ (d.status = "OK" ∨ d.status = "ERROR")
        ∧ ((Task.execute hdrOk fsRead send durationMs api workflow_name).2 = .ok ()
            ↔ d.status = "OK"))
    ∧ (∀ e, create_request_builder hdrOk fsRead api = .error e →
        (Task.execute hdrOk fsRead send durationMs api workflow_name).1 = []
        ∧ (Task.execute hdrOk fsRead send durationMs api workflow_name).2 = .error e) := by
  constructor
  · intro req hreq
    cases hs : send req with
    | ok status_code =>
      by_cases hsc : isSuccessStatus status_code
      · exact ⟨⟨api.url, "OK", durationMs, some status_code, api.method⟩,
          by simp [Task.execute, hreq, hs, hsc],
          Or.inl rfl,
          by simp [Task.execute, hreq, hs, hsc]⟩
      · exact ⟨⟨api.url, "ERROR", durationMs, some status_code, api.method⟩,
          by simp [Task.execute, hreq, hs, hsc],
          Or.inr rfl,
          by simp [Task.execute, hreq, hs, hsc]⟩
    | error e =>
      exact ⟨⟨api.url, "ERROR", durationMs, none, api.method⟩,
        by simp [Task.execute, hreq, hs],
        Or.inr rfl,
        by simp [Task.execute, hreq, hs]⟩
  · intro e he
    constructor
    · simp [Task.execute, he]
    · simp [Task.execute, he]

/-- C2 witness: the successful-build branch applied at a concrete GET step
(all headers valid, send returns 200): the single record written has
status "OK" and the call reports `Ok`. -/
theorem C2_single_write_witness :
    (Task.execute (fun _ _ => true) (fun s => .ok s) (fun _ => .ok 200) 7
        sampleApi "wf").1.length = 1
    ∧ (Task.execute (fun _ _ => true) (fun s => .ok s) (fun _ => .ok 200) 7
        sampleApi "wf").2 = .ok () := by
  obtain ⟨d, h1, h2, h3⟩ := (C2_single_write (fun _ _ => true) (fun s => .ok s)
    (fun _ => .ok 200) 7 sampleApi "wf").1 _ rfl
  refine ⟨?_, rfl⟩
  rw [h1]
  rfl

/-! Claim C10. -/

/-- C10 (corrected), counterexample: header validation precedes body
resolution, so a step with an unreadable `body_file` does not always get a
`BodyReadError`: with one unparsable header the call returns the header
error instead. -/
theorem C10_body_priority_cex :
    create_request_builder (fun k _ => k != "bad") (fun _ => .error "nope") badHeaderApi
      = .error (invalidHeaderMsg "bad" "v")
    ∧ isBodyReadError
        (create_request_builder (fun k _ => k != "bad") (fun _ => .error "nope") badHeaderApi)
      = false :=
  ⟨rfl, by decide⟩

/-- C10 (amended): provided every header of the step parses,
`create_request_builder` resolves the body before dispatching on the
method: an unreadable `body_file` yields the body-read error for every
method, GET and DELETE included; a readable `body_file` takes priority
over any inline literal body on POST/PUT; and a built GET or DELETE
request carries no body at all. -/
theorem C10_body_priority (hdrOk : String → String → Bool)
    (fsRead : String → Except String String) (api : ApiConfig)
    (hh : ∀ kv ∈ api.headers, hdrOk kv.1 kv.2 = true) :
    (∀ p e, api.body_file = some p → fsRead p = .error e →
      create_request_builder hdrOk fsRead api = .error (bodyReadErrMsg p e))
    ∧ (∀ req, create_request_builder hdrOk fsRead api = .ok req →
        (api.method = HttpMethod.GET ∨ api.method = HttpMethod.DELETE) → req.body = none)
    ∧ (∀ p s, api.body_file = some p → fsRead p = .ok s →
        (api.method = HttpMethod.POST ∨ api.method = HttpMethod.PUT) →
        create_request_builder hdrOk fsRead api
          = .ok ⟨api.method, api.url, api.headers, some s⟩) := by
  have hfind : api.headers.find? (fun kv => ! hdrOk kv.1 kv.2) = none := by
    rw [List.find?_eq_none]
    intro kv hkv
    simp [hh kv hkv]
  refine ⟨?_, ?_, ?_⟩
  · intro p e hp he
    simp [create_request_builder, hfind, hp, he]
  · intro req hreq hm
    rw [create_request_builder] at hreq
    rcases hb : api.body_file with _ | p
    · rcases hm with hm | hm
      · simp only [hfind, hb, hm, Except.ok.injEq] at hreq
        subst hreq
        rfl
      · simp only [hfind, hb, hm, Except.ok.injEq] at hreq
        subst hreq
        rfl
    · rcases hr : fsRead p with e | s
      · simp only [hfind, hb, hr] at hreq
        exact Except.noConfusion hreq
      · rcases hm with hm | hm
        · simp only [hfind, hb, hr, hm, Except.ok.injEq] at hreq
          subst hreq
          rfl
        · simp only [hfind, hb, hr, hm, Except.ok.injEq] at hreq
          subst hreq
          rfl
  · intro p s hp hs hm
    rcases hm with hm | hm
    · simp [create_request_builder, hfind, hp, hs, hm]
    · simp [create_request_builder, hfind, hp, hs, hm]

/-- C10 witness: the amended body-first behaviour at a concrete GET step
with an unreadable file body and all headers valid: the call returns the
body-read error even though GET carries no body. -/
theorem C10_body_priority_witness :
    create_request_builder (fun _ _ => true) (fun _ => .error "nope") fileGetApi
      = .error (bodyReadErrMsg "f" "nope") :=
  (C10_body_priority (fun _ _ => true) (fun _ => .error "nope") fileGetApi
    (by intro kv hkv; rfl)).1 "f" "nope" rfl rfl

/-! Claim C6. -/

theorem mem_apis_of_mem_create_monitor_tasks {apis : List ApiConfig}
    {t : MonitorKind × ApiConfig} (ht : t ∈ create_monitor_tasks apis) : t.2 ∈ apis := by
  simp only [create_monitor_tasks] at ht
  obtain ⟨a, ha, hfa⟩ := List.mem_filterMap.mp ht
  by_cases hl : a.load_test.getD false = true
  · rw [if_pos hl] at hfa
    cases hcfg : a.load_test_config with
    | none =>
      rw [hcfg] at hfa
      cases hfa
    | some c =>
      rw [hcfg] at hfa
      cases hfa
      exact ha
  · rw [if_neg hl] at hfa
    cases hfa
    exact ha

theorem workflowSchedule_keys (apis : List ApiConfig) :
    (workflowSchedule apis).map Prod.fst = orderKeys (create_monitor_tasks apis) := by
  rw [workflowSchedule, List.map_map]
  exact List.map_id'' (fun _ => rfl) _

/-- C6 (confirmed): `monitor_single_workflow` partitions the workflow's
monitors into buckets keyed by `get_task_order` (steps without a declared
order map to the single `usize::MAX` bucket), iterates the distinct keys in
ascending order, and dispatches each bucket as one concurrent batch that
fully precedes the next: the key list is sorted without duplicates, each
monitor sits exactly in the bucket of its key, a smaller-keyed batch occurs
strictly earlier in the schedule, and every scheduled monitor appears in
the execution log with its own result regardless of which monitors fail.
(`husize` records that declared orders are `usize` values.) -/
theorem C6_bucket_schedule (apis : List ApiConfig)
    (husize : ∀ a ∈ apis, a.task_order.getD 0 ≤ USIZE_MAX) :
    List.Sorted (· ≤ ·) ((workflowSchedule apis).map Prod.fst)
    ∧ ((workflowSchedule apis).map Prod.fst).Nodup
    ∧ (∀ t ∈ create_monitor_tasks apis,
        get_task_order t.2 ∈ (workflowSchedule apis).map Prod.fst)
    ∧ (∀ p ∈ workflowSchedule apis, ∀ t ∈ create_monitor_tasks apis,
        (t ∈ p.2 ↔ get_task_order t.2 = p.1))
    ∧ (∀ t ∈ create_monitor_tasks apis, t.2.task_order = none →
        get_task_order t.2 = USIZE_MAX)
    ∧ (∀ k ∈ (workflowSchedule apis).map Prod.fst, k ≤ USIZE_MAX)
    ∧ (∀ i j (hi : i < (workflowSchedule apis).length)
        (hj : j < (workflowSchedule apis).length),
        (workflowSchedule apis)[i].1 < (workflowSchedule apis)[j].1 → i < j)
    ∧ (∀ res : MonitorKind × ApiConfig → Bool,
        (executionLog apis res).map (fun p => (p.1, p.2.map Prod.fst))
          = workflowSchedule apis) := by
  have hsorted : List.Sorted (· ≤ ·) ((workflowSchedule apis).map Prod.fst) := by
    rw [workflowSchedule_keys]
    exact List.sorted_insertionSort _ _
  refine ⟨hsorted, ?_, ?_, ?_, ?_, ?_, ?_, ?_⟩
  · rw [workflowSchedule_keys]
    exact (List.perm_insertionSort _ _).nodup_iff.mpr (List.nodup_dedup _)
  · intro t ht
    rw [workflowSchedule_keys]
    simp only [orderKeys, List.mem_insertionSort, List.mem_dedup]
    exact List.mem_map.mpr ⟨t, ht, rfl⟩
  · intro p hp t ht
    obtain ⟨k, hk, rfl⟩ := List.mem_map.mp hp
    constructor
    · intro htp
      simpa using (List.mem_filter.mp htp).2
    · intro heq
      exact List.mem_filter.mpr ⟨ht, by simpa using heq⟩
  · intro t ht hnone
    simp [get_task_order, hnone]
  · intro k hk
    rw [workflowSchedule_keys] at hk
    simp only [orderKeys, List.mem_insertionSort, List.mem_dedup] at hk
    obtain ⟨t, ht, rfl⟩ := List.mem_map.mp hk
    have hta : t.2 ∈ apis := mem_apis_of_mem_create_monitor_tasks ht
    cases ho : t.2.task_order with
    | none => simp [get_task_order, ho]
    | some o =>
      have hb := husize t.2 hta
      rw [ho] at hb
      simpa [get_task_order, ho] using hb
  · intro i j hi hj hlt
    by_contra hji
    push_neg at hji
    rcases Nat.eq_or_lt_of_le hji with h | h
    · subst h
      exact absurd hlt (lt_irrefl _)
    · have hj' : j < ((workflowSchedule apis).map Prod.fst).length := by simpa using hj
      have hi' : i < ((workflowSchedule apis).map Prod.fst).length := by simpa using hi
      have hrel := List.Sorted.rel_get_of_lt hsorted
        (a := ⟨j, hj'⟩) (b := ⟨i, hi'⟩) h
      simp only [List.get_eq_getElem, List.getElem_map] at hrel
      exact absurd hlt (not_lt.mpr hrel)
  · intro res
    rw [executionLog, List.map_map]
    refine List.map_id'' (fun p => ?_) _
    simp only [Function.comp_apply, List.map_map]
    have hmap : List.map (Prod.fst ∘ fun t => (t, res t)) p.2 = p.2 :=
      List.map_id'' (fun _ => rfl) _
    rw [hmap]

/-- A step with declared order 2. -/
def exA2 : ApiConfig := { sampleApi with name := "s2", task_order := some 2 }

/-- A step with declared order 1 (first of two). -/
def exA1a : ApiConfig := { sampleApi with name := "s1a", task_order := some 1 }

/-- A step with declared order 1 (second of two). -/
def exA1b : ApiConfig := { sampleApi with name := "s1b", task_order := some 1 }

/-- A step without a declared order. -/
def exANone : ApiConfig := { sampleApi with name := "sn", task_order := none }

/-- C6 witness: for steps with orders [2, 1, 1, none] the schedule is
bucket 1 (both order-1 steps together), then bucket 2, then the
`usize::MAX` bucket with the orderless step last; the bucket keys are
sorted ascending by the main theorem. -/
theorem C6_bucket_schedule_witness :
    workflowSchedule [exA2, exA1a, exA1b, exANone]
      = [(1, [(MonitorKind.task, exA1a), (MonitorKind.task, exA1b)]),
         (2, [(MonitorKind.task, exA2)]),
         (USIZE_MAX, [(MonitorKind.task, exANone)])]
    ∧ List.Sorted (· ≤ ·) ((workflowSchedule [exA2, exA1a, exA1b, exANone]).map Prod.fst) :=
  ⟨by decide, (C6_bucket_schedule [exA2, exA1a, exA1b, exANone] (by decide)).1⟩

end Thunderhawk
